import Mathlib

/-!
The node twist_gate: mode arbiter and watchdog.

Shallow embedding of `twist_gate.cpp` (node `twist_gate` of the package
`waypoint_follower`).  The class `TwistGate` becomes a record of its data
members, every callback becomes a function from the record to the new record
together with the list of messages it publishes, and one iteration of the
`while(1)` loop of `watchdog_timer` becomes one function call.  The two reads of
`ros::Time::now()` are arguments of the functions that perform them.

Conventions.
* `std_msgs/Header.seq` is a `uint32`: it is a `Nat` and `seq++` is taken
  modulo `2^32`.
* `ros::Time` and `ros::Duration` are integer counts of nanoseconds (`Int`).
* `enum class CommandMode` has underlying type `int`; `command_mode_` stores the
  integer that `static_cast<CommandMode>` was given, so it is an `Int`.
-/

/-- Width modulus of the `uint32` field `header.seq`. -/
def UINT32_MOD : Nat := 2 ^ 32

/-- Message `std_msgs/Header`. -/
structure std_msgs.Header where
  seq : Nat
  stamp : Int
  frame_id : String
deriving DecidableEq, Repr

/-- Modelled from the spec: the declaration of `autoware_msgs/TwistGate`
(`twist_gate_msgs_t`) is not among the sources.  The fields are the ones the
code assigns; their types follow the data model of the specification
(float fields hold exact rationals, the code only copies them or stores the
literals `0` and `-1`). -/
structure twist_gate_msgs_t where
  header : std_msgs.Header
  linear_x : ℚ
  angular_z : ℚ
  mode : Int
  gear : Int
  blinker : Int
  accel : ℚ
  brake : ℚ
  steer : ℚ
  linear_velocity : ℚ
  steering_angle : ℚ
  emergency : Bool
deriving DecidableEq, Repr

/-- Modelled from the spec: the declaration of `autoware_msgs/RemoteCmd`
(`remote_msgs_t`) is not among the sources.  The fields are the ones
`remote_cmd_callback` reads, typed as the remote fragment of the
specification; `emergency` is a truth value, so `static_cast<bool>` keeps it. -/
structure remote_msgs_t where
  header : std_msgs.Header
  steer : ℚ
  accel : ℚ
  brake : ℚ
  gear : Int
  blinker : Int
  mode : Int
  control_mode : Int
  emergency : Bool
deriving DecidableEq, Repr

/-- Message `geometry_msgs/Vector3`. -/
structure geometry_msgs.Vector3 where
  x : ℚ
  y : ℚ
  z : ℚ
deriving DecidableEq, Repr

/-- Message `geometry_msgs/Twist`. -/
structure geometry_msgs.Twist where
  linear : geometry_msgs.Vector3
  angular : geometry_msgs.Vector3
deriving DecidableEq, Repr

/-- Message `geometry_msgs/TwistStamped`. -/
structure geometry_msgs.TwistStamped where
  header : std_msgs.Header
  twist : geometry_msgs.Twist
deriving DecidableEq, Repr

/-- Modelled from the spec: `tablet_socket_msgs/mode_cmd` is not among the
sources; the planner_mode fragment carries a header and an integer mode. -/
structure tablet_socket_msgs.mode_cmd where
  header : std_msgs.Header
  mode : Int
deriving DecidableEq, Repr

/-- Modelled from the spec: `tablet_socket_msgs/gear_cmd` is not among the
sources; the gear fragment carries an integer gear. -/
structure tablet_socket_msgs.gear_cmd where
  gear : Int
deriving DecidableEq, Repr

/-- Modelled from the spec: `autoware_msgs/accel_cmd` is not among the
sources; the accel fragment carries a header and the accel value. -/
structure autoware_msgs.accel_cmd where
  header : std_msgs.Header
  accel : ℚ
deriving DecidableEq, Repr

/-- Modelled from the spec: `autoware_msgs/steer_cmd` is not among the
sources; the steer fragment carries a header and the steer value. -/
structure autoware_msgs.steer_cmd where
  header : std_msgs.Header
  steer : ℚ
deriving DecidableEq, Repr

/-- Modelled from the spec: `autoware_msgs/brake_cmd` is not among the
sources; the brake fragment carries a header and the brake value. -/
structure autoware_msgs.brake_cmd where
  header : std_msgs.Header
  brake : ℚ
deriving DecidableEq, Repr

/-- Modelled from the spec: `autoware_msgs/ControlCommand` is not among the
sources; the trajectory_cmd fragment carries a target velocity and a target
steering angle. -/
structure autoware_msgs.ControlCommand where
  linear_velocity : ℚ
  steering_angle : ℚ
deriving DecidableEq, Repr

/-- Modelled from the spec: `autoware_msgs/ControlCommandStamped` is not among
the sources; it is a header and a `ControlCommand` read as `cmd`. -/
structure autoware_msgs.ControlCommandStamped where
  header : std_msgs.Header
  cmd : autoware_msgs.ControlCommand
deriving DecidableEq, Repr

/-- What the node sends out: one constructor per publisher, and one for the
warnings written with `ROS_WARN`. -/
inductive Output where
  | emergency_stop (data : Bool)
  | ctrl_mode (data : String)
  | vehicle_cmd (msg : twist_gate_msgs_t)
  | warn (text : String)
deriving DecidableEq, Repr

/-- Enumerator `CommandMode::AUTO`. -/
def CommandMode.AUTO : Int := 1

/-- Enumerator `CommandMode::REMOTE`. -/
def CommandMode.REMOTE : Int := 2

/-- Member `timeout_period_`: set to `ros::Duration(1.0)` by the constructor
and never assigned again; one second in nanoseconds. -/
def timeout_period_ : Int := 1000000000

/-- The data members of class `TwistGate` that the callbacks and the watchdog
read or write. -/
structure TwistGate where
  twist_gate_msg_ : twist_gate_msgs_t
  emergency_stop_msg_ : Bool
  remote_cmd_time_ : Int
  command_mode_ : Int
  previous_command_mode_ : Int
  command_mode_topic_ : String
deriving DecidableEq, Repr

/-- The header operation `twist_gate_msg_.header.seq++`. -/
def seq_incr (seq : Nat) : Nat := (seq + 1) % UINT32_MOD

/-- A value-initialised `twist_gate_msgs_t`, as the generated message
constructor leaves it: numbers zero, strings empty. -/
def twist_gate_msgs_t.zero : twist_gate_msgs_t :=
  { header := { seq := 0, stamp := 0, frame_id := "" },
    linear_x := 0, angular_z := 0, mode := 0, gear := 0, blinker := 0,
    accel := 0, brake := 0, steer := 0, linear_velocity := 0,
    steering_angle := 0, emergency := false }

namespace TwistGate

/-- Constructor `TwistGate::TwistGate`; `now` is the value of
`ros::Time::now()` it reads. -/
def init (now : Int) : TwistGate :=
  { twist_gate_msg_ :=
      { twist_gate_msgs_t.zero with
        header := { twist_gate_msgs_t.zero.header with seq := 0 } },
    emergency_stop_msg_ := false,
    remote_cmd_time_ := now,
    command_mode_ := CommandMode.AUTO,
    previous_command_mode_ := CommandMode.AUTO,
    command_mode_topic_ := "" }

/-- Method `reset_vehicle_cmd_msg` on the message it resets. -/
def reset_msg (m : twist_gate_msgs_t) : twist_gate_msgs_t :=
  { m with
    linear_x := 0,
    angular_z := 0,
    mode := 0,
    gear := 0,
    blinker := 0,
    accel := 0,
    brake := 0,
    steer := 0,
    linear_velocity := -1,
    steering_angle := 0 }

/-- Method `TwistGate::reset_vehicle_cmd_msg`. -/
def reset_vehicle_cmd_msg (s : TwistGate) : TwistGate :=
  { s with twist_gate_msg_ := reset_msg s.twist_gate_msg_ }

/-- One iteration of the loop of `TwistGate::watchdog_timer`; `now_time` is the
value of `ros::Time::now()` read at its start.  The local `emergency_flag` is
followed through its three assignments, the outputs are listed in program
order. -/
def watchdog_timer (now_time : Int) (s : TwistGate) : TwistGate × List Output :=
  let emergency_flag0 : Bool := false
  -- check command mode
  let r1 : TwistGate × List Output :=
    if s.previous_command_mode_ ≠ s.command_mode_ then
      let sa : TwistGate :=
        if s.command_mode_ = CommandMode.AUTO then
          { s with command_mode_topic_ := "AUTO" }
        else if s.command_mode_ = CommandMode.REMOTE then
          { s with command_mode_topic_ := "REMOTE" }
        else
          { s with command_mode_topic_ := "UNDEFINED" }
      ({ sa with previous_command_mode_ := sa.command_mode_ },
       [Output.ctrl_mode sa.command_mode_topic_])
    else (s, [])
  let s1 : TwistGate := r1.1
  -- if lost Communication
  let lost : Bool :=
    decide (s1.command_mode_ = CommandMode.REMOTE ∧
      now_time - s1.remote_cmd_time_ > timeout_period_)
  let emergency_flag1 : Bool := if lost then true else emergency_flag0
  let out2 : List Output :=
    if lost then r1.2 ++ [Output.warn "Lost Communication!"] else r1.2
  -- if push emergency stop button
  let pushed : Bool := s1.emergency_stop_msg_ == true
  let emergency_flag2 : Bool := if pushed then true else emergency_flag1
  let out3 : List Output :=
    if pushed then out2 ++ [Output.warn "Emergency Mode!"] else out2
  -- Emergency
  if emergency_flag2 then
    let s2 : TwistGate :=
      { s1 with command_mode_ := CommandMode.AUTO, emergency_stop_msg_ := true }
    (s2, out3 ++ [Output.emergency_stop s2.emergency_stop_msg_,
                  Output.warn "Emergency Stop!"])
  else (s1, out3)

/-- The three header assignments shared by the callbacks that stamp the
buffer: `frame_id` and `stamp` copied from the input, then `seq++`. -/
def stamp_header (h : std_msgs.Header) (input : std_msgs.Header) : std_msgs.Header :=
  { frame_id := input.frame_id,
    stamp := input.stamp,
    seq := seq_incr h.seq }

/-- Method `TwistGate::remote_cmd_callback`; `now` is the value of
`ros::Time::now()` it reads. -/
def remote_cmd_callback (now : Int) (input_msg : remote_msgs_t) (s : TwistGate) :
    TwistGate × List Output :=
  let s1 : TwistGate :=
    { s with
      command_mode_ := input_msg.control_mode,
      emergency_stop_msg_ := input_msg.emergency,
      remote_cmd_time_ := now }
  if s1.command_mode_ = CommandMode.REMOTE then
    let m : twist_gate_msgs_t :=
      { s1.twist_gate_msg_ with
        header := stamp_header s1.twist_gate_msg_.header input_msg.header,
        linear_x := input_msg.accel,
        angular_z := 0,
        steering_angle := input_msg.steer,
        accel := input_msg.accel,
        brake := input_msg.brake,
        steer := input_msg.steer,
        gear := input_msg.gear,
        blinker := input_msg.blinker,
        mode := input_msg.mode,
        emergency := input_msg.emergency }
    ({ s1 with twist_gate_msg_ := m }, [Output.vehicle_cmd m])
  else (s1, [])

/-- Method `TwistGate::auto_cmd_twist_cmd_callback`. -/
def auto_cmd_twist_cmd_callback (input_msg : geometry_msgs.TwistStamped) (s : TwistGate) :
    TwistGate × List Output :=
  if s.command_mode_ = CommandMode.AUTO then
    let m : twist_gate_msgs_t :=
      { s.twist_gate_msg_ with
        header := stamp_header s.twist_gate_msg_.header input_msg.header,
        linear_x := input_msg.twist.linear.x,
        angular_z := input_msg.twist.angular.z }
    ({ s with twist_gate_msg_ := m }, [Output.vehicle_cmd m])
  else (s, [])

/-- Method `TwistGate::auto_cmd_mode_cmd_callback`. -/
def auto_cmd_mode_cmd_callback (input_msg : tablet_socket_msgs.mode_cmd) (s : TwistGate) :
    TwistGate × List Output :=
  if s.command_mode_ = CommandMode.AUTO then
    let s1 : TwistGate :=
      if input_msg.mode = -1 ∨ input_msg.mode = 0 then reset_vehicle_cmd_msg s
      else s
    let m : twist_gate_msgs_t :=
      { s1.twist_gate_msg_ with
        header := stamp_header s1.twist_gate_msg_.header input_msg.header,
        mode := input_msg.mode }
    ({ s1 with twist_gate_msg_ := m }, [Output.vehicle_cmd m])
  else (s, [])

/-- Method `TwistGate::auto_cmd_gear_cmd_callback`. -/
def auto_cmd_gear_cmd_callback (input_msg : tablet_socket_msgs.gear_cmd) (s : TwistGate) :
    TwistGate × List Output :=
  if s.command_mode_ = CommandMode.AUTO then
    let m : twist_gate_msgs_t :=
      { s.twist_gate_msg_ with gear := input_msg.gear }
    ({ s with twist_gate_msg_ := m }, [Output.vehicle_cmd m])
  else (s, [])

/-- Method `TwistGate::auto_cmd_accel_cmd_callback`. -/
def auto_cmd_accel_cmd_callback (input_msg : autoware_msgs.accel_cmd) (s : TwistGate) :
    TwistGate × List Output :=
  if s.command_mode_ = CommandMode.AUTO then
    let m : twist_gate_msgs_t :=
      { s.twist_gate_msg_ with
        header := stamp_header s.twist_gate_msg_.header input_msg.header,
        accel := input_msg.accel }
    ({ s with twist_gate_msg_ := m }, [Output.vehicle_cmd m])
  else (s, [])

/-- Method `TwistGate::auto_cmd_steer_cmd_callback`. -/
def auto_cmd_steer_cmd_callback (input_msg : autoware_msgs.steer_cmd) (s : TwistGate) :
    TwistGate × List Output :=
  if s.command_mode_ = CommandMode.AUTO then
    let m : twist_gate_msgs_t :=
      { s.twist_gate_msg_ with
        header := stamp_header s.twist_gate_msg_.header input_msg.header,
        steer := input_msg.steer }
    ({ s with twist_gate_msg_ := m }, [Output.vehicle_cmd m])
  else (s, [])

/-- Method `TwistGate::auto_cmd_brake_cmd_callback`. -/
def auto_cmd_brake_cmd_callback (input_msg : autoware_msgs.brake_cmd) (s : TwistGate) :
    TwistGate × List Output :=
  if s.command_mode_ = CommandMode.AUTO then
    let m : twist_gate_msgs_t :=
      { s.twist_gate_msg_ with
        header := stamp_header s.twist_gate_msg_.header input_msg.header,
        brake := input_msg.brake }
    ({ s with twist_gate_msg_ := m }, [Output.vehicle_cmd m])
  else (s, [])

/-- Method `TwistGate::auto_cmd_ctrl_cmd_callback`. -/
def auto_cmd_ctrl_cmd_callback (input_msg : autoware_msgs.ControlCommandStamped)
    (s : TwistGate) : TwistGate × List Output :=
  if s.command_mode_ = CommandMode.AUTO then
    let m : twist_gate_msgs_t :=
      { s.twist_gate_msg_ with
        header := stamp_header s.twist_gate_msg_.header input_msg.header,
        linear_velocity := input_msg.cmd.linear_velocity,
        steering_angle := input_msg.cmd.steering_angle }
    ({ s with twist_gate_msg_ := m }, [Output.vehicle_cmd m])
  else (s, [])

end TwistGate

/-- A fragment of the autonomous source: one constructor per subscription of
`auto_cmd_sub_stdmap_`. -/
inductive AutoFragment where
  | twist_cmd (msg : geometry_msgs.TwistStamped)
  | mode_cmd (msg : tablet_socket_msgs.mode_cmd)
  | gear_cmd (msg : tablet_socket_msgs.gear_cmd)
  | accel_cmd (msg : autoware_msgs.accel_cmd)
  | steer_cmd (msg : autoware_msgs.steer_cmd)
  | brake_cmd (msg : autoware_msgs.brake_cmd)
  | ctrl_cmd (msg : autoware_msgs.ControlCommandStamped)
deriving DecidableEq, Repr

/-- Dispatch of an autonomous fragment to the callback subscribed to it. -/
def TwistGate.auto_cmd_callback (f : AutoFragment) (s : TwistGate) :
    TwistGate × List Output :=
  match f with
  | .twist_cmd msg => s.auto_cmd_twist_cmd_callback msg
  | .mode_cmd msg => s.auto_cmd_mode_cmd_callback msg
  | .gear_cmd msg => s.auto_cmd_gear_cmd_callback msg
  | .accel_cmd msg => s.auto_cmd_accel_cmd_callback msg
  | .steer_cmd msg => s.auto_cmd_steer_cmd_callback msg
  | .brake_cmd msg => s.auto_cmd_brake_cmd_callback msg
  | .ctrl_cmd msg => s.auto_cmd_ctrl_cmd_callback msg

/-- One thing that happens to the node: a remote fragment, an autonomous
fragment, or one iteration of the watchdog loop.  The clock reads are part of
the event. -/
inductive Event where
  | remote (now : Int) (msg : remote_msgs_t)
  | auto (f : AutoFragment)
  | tick (now_time : Int)
deriving DecidableEq, Repr

/-- The node handles one event. -/
def TwistGate.step (s : TwistGate) (e : Event) : TwistGate × List Output :=
  match e with
  | .remote now msg => s.remote_cmd_callback now msg
  | .auto f => s.auto_cmd_callback f
  | .tick now_time => s.watchdog_timer now_time

/-- The node handles a finite sequence of events one after the other; the
outputs are collected in the order they are sent. -/
def TwistGate.run (s : TwistGate) : List Event → TwistGate × List Output
  | [] => (s, [])
  | e :: es =>
    let r := s.step e
    let r2 := TwistGate.run r.1 es
    (r2.1, r.2 ++ r2.2)

/-- The `header.seq` values of the VehicleCommand snapshots among the outputs,
in emission order. -/
def emitted_seqs : List Output → List Nat
  | [] => []
  | Output.vehicle_cmd msg :: os => msg.header.seq :: emitted_seqs os
  | _ :: os => emitted_seqs os

/-- The VehicleCommand snapshots among the outputs, in emission order. -/
def vehicle_cmds : List Output → List twist_gate_msgs_t
  | [] => []
  | Output.vehicle_cmd msg :: os => msg :: vehicle_cmds os
  | _ :: os => vehicle_cmds os

/-- The actuation fields of the VehicleCommand buffer: every field of
`twist_gate_msgs_t` outside the header. -/
inductive ActuationField where
  | linear_x | angular_z | mode | gear | blinker | accel | brake | steer
  | linear_velocity | steering_angle | emergency
deriving DecidableEq, Repr

/-- Two buffers hold the same value in the given actuation field. -/
def ActuationField.same (fld : ActuationField) (a b : twist_gate_msgs_t) : Prop :=
  match fld with
  | .linear_x => a.linear_x = b.linear_x
  | .angular_z => a.angular_z = b.angular_z
  | .mode => a.mode = b.mode
  | .gear => a.gear = b.gear
  | .blinker => a.blinker = b.blinker
  | .accel => a.accel = b.accel
  | .brake => a.brake = b.brake
  | .steer => a.steer = b.steer
  | .linear_velocity => a.linear_velocity = b.linear_velocity
  | .steering_angle => a.steering_angle = b.steering_angle
  | .emergency => a.emergency = b.emergency

/-- The actuation fields owned by each autonomous fragment kind, as the
specification lists them: motion owns linear_x and angular_z, planner_mode owns
mode, gear owns gear, accel owns accel, steer owns steer, brake owns brake and
trajectory_cmd owns linear_velocity and steering_angle. -/
def AutoFragment.owned : AutoFragment → List ActuationField
  | .twist_cmd _ => [.linear_x, .angular_z]
  | .mode_cmd _ => [.mode]
  | .gear_cmd _ => [.gear]
  | .accel_cmd _ => [.accel]
  | .steer_cmd _ => [.steer]
  | .brake_cmd _ => [.brake]
  | .ctrl_cmd _ => [.linear_velocity, .steering_angle]

/-- The fragment is a planner_mode fragment whose value is 0 or -1, the two
values on which `auto_cmd_mode_cmd_callback` resets the buffer. -/
def AutoFragment.is_reset : AutoFragment → Prop
  | .mode_cmd msg => msg.mode = -1 ∨ msg.mode = 0
  | _ => False

/-- The fragment of the scenario of the specification: a remote fragment that
requests REMOTE with accel 0.3, brake 0, steer 0.1 and no stop request. -/
def remote_fragment_example : remote_msgs_t :=
  { header := { seq := 0, stamp := 200000000, frame_id := "remote" },
    steer := 1 / 10, accel := 3 / 10, brake := 0, gear := 0, blinker := 0,
    mode := 0, control_mode := CommandMode.REMOTE, emergency := false }

/-- A remote fragment that requests REMOTE and asks for a stop. -/
def stop_request_example : remote_msgs_t :=
  { remote_fragment_example with emergency := true }

/-- A motion fragment. -/
def twist_example : geometry_msgs.TwistStamped :=
  { header := { seq := 0, stamp := 10, frame_id := "base_link" },
    twist := { linear := { x := 2, y := 0, z := 0 },
               angular := { x := 0, y := 0, z := 1 } } }

/-- An accel fragment. -/
def accel_example : autoware_msgs.accel_cmd :=
  { header := { seq := 0, stamp := 20, frame_id := "accel" }, accel := 5 }

/-- A planner_mode fragment with mode_value 0. -/
def mode_zero_example : tablet_socket_msgs.mode_cmd :=
  { header := { seq := 0, stamp := 30, frame_id := "mode" }, mode := 0 }

/-- The state after the constructor at time 0 and one remote fragment that
requests REMOTE: the mode is REMOTE. -/
def remote_state_example : TwistGate :=
  ((TwistGate.init 0).remote_cmd_callback 0 remote_fragment_example).1

/-- The mode-name announcements (messages on `/ctrl_mode`) among the outputs,
in emission order. -/
def announcements (os : List Output) : List String :=
  os.filterMap (fun o => match o with
    | Output.ctrl_mode data => some data
    | _ => none)

/-- The emergency flags (messages on `/emergency_stop`) among the outputs, in
emission order. -/
def emergency_flags (os : List Output) : List Bool :=
  os.filterMap (fun o => match o with
    | Output.emergency_stop data => some data
    | _ => none)

/-- The event is the delivery of a remote fragment. -/
def Event.is_remote : Event → Bool
  | .remote _ _ => true
  | _ => false

/-- The state after the constructor at time 0 and one remote fragment that
requests REMOTE together with a stop: mode REMOTE, stop-request bit true. -/
def stop_state_example : TwistGate :=
  ((TwistGate.init 0).remote_cmd_callback 0 stop_request_example).1

/-! ## Shared lemmas -/

theorem seq_incr_ne (n : Nat) : seq_incr n ≠ n := by
  unfold seq_incr UINT32_MOD
  omega

theorem TwistGate.auto_cmd_callback_not_auto (s : TwistGate)
    (h : s.command_mode_ ≠ CommandMode.AUTO) (f : AutoFragment) :
    s.auto_cmd_callback f = (s, []) := by
  cases f <;>
    simp [TwistGate.auto_cmd_callback, TwistGate.auto_cmd_twist_cmd_callback,
      TwistGate.auto_cmd_mode_cmd_callback, TwistGate.auto_cmd_gear_cmd_callback,
      TwistGate.auto_cmd_accel_cmd_callback, TwistGate.auto_cmd_steer_cmd_callback,
      TwistGate.auto_cmd_brake_cmd_callback, TwistGate.auto_cmd_ctrl_cmd_callback, h]

theorem TwistGate.run_auto_not_auto (s : TwistGate)
    (h : s.command_mode_ ≠ CommandMode.AUTO) (fs : List AutoFragment) :
    s.run (fs.map Event.auto) = (s, []) := by
  induction fs with
  | nil => rfl
  | cons f fs ih =>
    simp [TwistGate.run, TwistGate.step, TwistGate.auto_cmd_callback_not_auto s h f, ih]

/-- Every callback that stamps the header (all of them but the gear callback)
increments the sequence number, modulo `2^32`, when it accepts its fragment. -/
theorem TwistGate.stamping_fragment_increments_seq (s : TwistGate)
    (h : s.command_mode_ = CommandMode.AUTO) (f : AutoFragment)
    (hg : ∀ msg, f ≠ AutoFragment.gear_cmd msg) :
    (s.auto_cmd_callback f).1.twist_gate_msg_.header.seq
      = (s.twist_gate_msg_.header.seq + 1) % 2 ^ 32 := by
  cases f with
  | gear_cmd msg => exact absurd rfl (hg msg)
  | mode_cmd msg =>
    by_cases hm : msg.mode = -1 ∨ msg.mode = 0 <;>
      simp [TwistGate.auto_cmd_callback, TwistGate.auto_cmd_mode_cmd_callback,
        TwistGate.reset_vehicle_cmd_msg, TwistGate.reset_msg,
        TwistGate.stamp_header, seq_incr, UINT32_MOD, h, hm]
  | _ =>
    simp [TwistGate.auto_cmd_callback, TwistGate.auto_cmd_twist_cmd_callback,
      TwistGate.auto_cmd_accel_cmd_callback, TwistGate.auto_cmd_steer_cmd_callback,
      TwistGate.auto_cmd_brake_cmd_callback, TwistGate.auto_cmd_ctrl_cmd_callback,
      TwistGate.stamp_header, seq_incr, UINT32_MOD, h]

/-- The gear callback leaves the whole header as it was. -/
theorem TwistGate.gear_fragment_keeps_header (s : TwistGate) (msg : tablet_socket_msgs.gear_cmd) :
    (s.auto_cmd_gear_cmd_callback msg).1.twist_gate_msg_.header
      = s.twist_gate_msg_.header := by
  by_cases h : s.command_mode_ = CommandMode.AUTO <;>
    simp [TwistGate.auto_cmd_gear_cmd_callback, h]

/-- The reset performed by `reset_vehicle_cmd_msg` leaves the header and the
emergency field of the buffer as they were. -/
theorem TwistGate.reset_vehicle_cmd_msg_keeps (s : TwistGate) :
    s.reset_vehicle_cmd_msg.twist_gate_msg_.emergency = s.twist_gate_msg_.emergency ∧
    s.reset_vehicle_cmd_msg.twist_gate_msg_.header = s.twist_gate_msg_.header := by
  simp [TwistGate.reset_vehicle_cmd_msg, TwistGate.reset_msg]

/-! ## Mode gating -/

/-- C1 (P1, mode gating): from every state whose mode is REMOTE, every finite
sequence of autonomous-kind fragments leaves the whole VehicleCommand buffer
(header included) as it was and sends nothing at all, so in particular no
VehicleCommand. -/
theorem auto_fragments_gated_in_remote (s : TwistGate)
    (h : s.command_mode_ = CommandMode.REMOTE) (fs : List AutoFragment) :
    (s.run (fs.map Event.auto)).1.twist_gate_msg_ = s.twist_gate_msg_ ∧
    (s.run (fs.map Event.auto)).2 = [] := by
  have hne : s.command_mode_ ≠ CommandMode.AUTO := by
    rw [h]; decide
  rw [TwistGate.run_auto_not_auto s hne fs]
  exact ⟨rfl, rfl⟩

/-- Witness of C1: in the state reached by one remote fragment requesting
REMOTE, a motion, an accel and a planner_mode fragment change nothing. -/
theorem auto_fragments_gated_in_remote_witness :
    remote_state_example.command_mode_ = CommandMode.REMOTE ∧
    (remote_state_example.run
      ([AutoFragment.twist_cmd twist_example, AutoFragment.accel_cmd accel_example,
        AutoFragment.mode_cmd mode_zero_example].map Event.auto)).1.twist_gate_msg_
      = remote_state_example.twist_gate_msg_ ∧
    (remote_state_example.run
      ([AutoFragment.twist_cmd twist_example, AutoFragment.accel_cmd accel_example,
        AutoFragment.mode_cmd mode_zero_example].map Event.auto)).2 = [] :=
  ⟨rfl, auto_fragments_gated_in_remote remote_state_example rfl _⟩

/-! ## Sequence numbers -/

/-- C2 (P2, sequence increment), evaluated on the gear path: right after the
constructor the mode is AUTONOMOUS, a gear fragment is accepted (the gear field
is written and one snapshot is sent) and the sequence number is still 0, not
0 + 1. -/
theorem gear_fragment_keeps_sequence :
    (TwistGate.init 0).command_mode_ = CommandMode.AUTO ∧
    (TwistGate.init 0).twist_gate_msg_.header.seq = 0 ∧
    ((TwistGate.init 0).auto_cmd_gear_cmd_callback { gear := 3 }).1.twist_gate_msg_.gear = 3 ∧
    (vehicle_cmds ((TwistGate.init 0).auto_cmd_gear_cmd_callback { gear := 3 }).2).length = 1 ∧
    ((TwistGate.init 0).auto_cmd_gear_cmd_callback { gear := 3 }).1.twist_gate_msg_.header.seq = 0 ∧
    ((TwistGate.init 0).auto_cmd_gear_cmd_callback { gear := 3 }).1.twist_gate_msg_.header.seq
      ≠ (TwistGate.init 0).twist_gate_msg_.header.seq + 1 := by
  decide

/-- C3 (I1, strictly increasing emissions), evaluated on a run from the
initial state: a motion fragment and then a gear fragment send two snapshots
that both carry sequence number 1, so the emitted numbers are not strictly
increasing. -/
theorem gear_emission_repeats_sequence :
    emitted_seqs ((TwistGate.init 0).run
      [Event.auto (AutoFragment.twist_cmd twist_example),
       Event.auto (AutoFragment.gear_cmd { gear := 3 })]).2 = [1, 1] ∧
    ¬ List.Pairwise (fun a b => a < b)
      (emitted_seqs ((TwistGate.init 0).run
        [Event.auto (AutoFragment.twist_cmd twist_example),
         Event.auto (AutoFragment.gear_cmd { gear := 3 })]).2) := by
  decide

/-! ## Field ownership and reset -/

/-- C4 (P3, merge of one fragment): in AUTONOMOUS mode, an autonomous-kind
fragment that is not a resetting planner_mode fragment leaves every actuation
field that its kind does not own at its prior value; for an accel fragment
these are linear_x, angular_z, mode, gear, blinker, brake, steer,
linear_velocity, steering_angle and emergency. -/
theorem auto_fragment_changes_only_owned_fields (s : TwistGate)
    (h : s.command_mode_ = CommandMode.AUTO) (f : AutoFragment)
    (hr : ¬ f.is_reset) (fld : ActuationField) (hf : fld ∉ f.owned) :
    fld.same s.twist_gate_msg_ (s.auto_cmd_callback f).1.twist_gate_msg_ := by
  cases f <;> cases fld <;>
    simp_all [AutoFragment.owned, AutoFragment.is_reset, ActuationField.same,
      TwistGate.auto_cmd_callback, TwistGate.auto_cmd_twist_cmd_callback,
      TwistGate.auto_cmd_mode_cmd_callback, TwistGate.auto_cmd_gear_cmd_callback,
      TwistGate.auto_cmd_accel_cmd_callback, TwistGate.auto_cmd_steer_cmd_callback,
      TwistGate.auto_cmd_brake_cmd_callback, TwistGate.auto_cmd_ctrl_cmd_callback]

/-- Witness of C4: after the constructor, an accel fragment leaves the field
steer of the buffer as it was. -/
theorem auto_fragment_changes_only_owned_fields_witness :
    (TwistGate.init 0).command_mode_ = CommandMode.AUTO ∧
    ¬ (AutoFragment.accel_cmd accel_example).is_reset ∧
    ActuationField.steer ∉ (AutoFragment.accel_cmd accel_example).owned ∧
    ActuationField.steer.same (TwistGate.init 0).twist_gate_msg_
      ((TwistGate.init 0).auto_cmd_callback
        (AutoFragment.accel_cmd accel_example)).1.twist_gate_msg_ :=
  ⟨rfl, by simp [AutoFragment.is_reset], by decide,
   auto_fragment_changes_only_owned_fields (TwistGate.init 0) rfl
     (AutoFragment.accel_cmd accel_example) (by simp [AutoFragment.is_reset])
     ActuationField.steer (by decide)⟩

/-- C5 (P4, reset semantics), evaluated on a reachable state: after the
constructor, a remote fragment that requests REMOTE with a stop request and one
watchdog tick, the mode is AUTONOMOUS and the emergency field of the buffer is
true; a planner_mode fragment with mode_value 0 is then accepted, sets
linear_velocity to -1 and mode to 0, and the emergency field is still true,
not false. -/
theorem reset_keeps_emergency_field :
    ((TwistGate.init 0).run
      [Event.remote 0 stop_request_example, Event.tick 0]).1.command_mode_
      = CommandMode.AUTO ∧
    ((TwistGate.init 0).run
      [Event.remote 0 stop_request_example, Event.tick 0]).1.twist_gate_msg_.emergency
      = true ∧
    ((((TwistGate.init 0).run
      [Event.remote 0 stop_request_example, Event.tick 0]).1.auto_cmd_mode_cmd_callback
        mode_zero_example).1.twist_gate_msg_.linear_velocity = -1) ∧
    ((((TwistGate.init 0).run
      [Event.remote 0 stop_request_example, Event.tick 0]).1.auto_cmd_mode_cmd_callback
        mode_zero_example).1.twist_gate_msg_.mode = 0) ∧
    ((((TwistGate.init 0).run
      [Event.remote 0 stop_request_example, Event.tick 0]).1.auto_cmd_mode_cmd_callback
        mode_zero_example).1.twist_gate_msg_.emergency = true) := by
  refine ⟨by decide, by decide, ?_, by decide, by decide⟩
  rfl

/-! ## Remote fragments -/

/-- C6 (remote acceptance): for every state and every remote fragment whose
requested mode is REMOTE, after `remote_cmd_callback` the mode is REMOTE, the
buffer fields accel, brake, steer, gear, blinker and mode hold the values of the
fragment, angular_z is 0, the sequence number is the old one incremented (as a
32-bit unsigned counter), and exactly one output is sent: a VehicleCommand equal
to the updated buffer. -/
theorem remote_fragment_accepted (now : Int) (input_msg : remote_msgs_t)
    (s : TwistGate) (h : input_msg.control_mode = CommandMode.REMOTE) :
    (s.remote_cmd_callback now input_msg).1.command_mode_ = CommandMode.REMOTE ∧
    (s.remote_cmd_callback now input_msg).1.twist_gate_msg_.accel = input_msg.accel ∧
    (s.remote_cmd_callback now input_msg).1.twist_gate_msg_.brake = input_msg.brake ∧
    (s.remote_cmd_callback now input_msg).1.twist_gate_msg_.steer = input_msg.steer ∧
    (s.remote_cmd_callback now input_msg).1.twist_gate_msg_.gear = input_msg.gear ∧
    (s.remote_cmd_callback now input_msg).1.twist_gate_msg_.blinker = input_msg.blinker ∧
    (s.remote_cmd_callback now input_msg).1.twist_gate_msg_.mode = input_msg.mode ∧
    (s.remote_cmd_callback now input_msg).1.twist_gate_msg_.angular_z = 0 ∧
    (s.remote_cmd_callback now input_msg).1.twist_gate_msg_.header.seq
      = (s.twist_gate_msg_.header.seq + 1) % 2 ^ 32 ∧
    (s.remote_cmd_callback now input_msg).2
      = [Output.vehicle_cmd (s.remote_cmd_callback now input_msg).1.twist_gate_msg_] := by
  simp [TwistGate.remote_cmd_callback, TwistGate.stamp_header, seq_incr, UINT32_MOD, h]

/-- Witness of C6: the scenario fragment (REMOTE, accel 0.3, brake 0,
steer 0.1, no stop request) delivered right after the constructor. -/
theorem remote_fragment_accepted_witness :
    remote_fragment_example.control_mode = CommandMode.REMOTE ∧
    ((TwistGate.init 0).remote_cmd_callback 200000000
      remote_fragment_example).1.command_mode_ = CommandMode.REMOTE ∧
    ((TwistGate.init 0).remote_cmd_callback 200000000
      remote_fragment_example).1.twist_gate_msg_.accel = 3 / 10 ∧
    ((TwistGate.init 0).remote_cmd_callback 200000000
      remote_fragment_example).1.twist_gate_msg_.angular_z = 0 ∧
    ((TwistGate.init 0).remote_cmd_callback 200000000
      remote_fragment_example).1.twist_gate_msg_.header.seq = 1 ∧
    ((TwistGate.init 0).remote_cmd_callback 200000000 remote_fragment_example).2
      = [Output.vehicle_cmd ((TwistGate.init 0).remote_cmd_callback 200000000
          remote_fragment_example).1.twist_gate_msg_] :=
  have w := remote_fragment_accepted 200000000 remote_fragment_example
    (TwistGate.init 0) rfl
  ⟨rfl, w.1, w.2.1, w.2.2.2.2.2.2.2.1, w.2.2.2.2.2.2.2.2.1, w.2.2.2.2.2.2.2.2.2⟩

/-- Counterexample to C7 as stated: after the constructor linear_x and
steering_angle are 0; the scenario fragment, accepted with requested mode
REMOTE, leaves linear_x at 0.3 and steering_angle at 0.1, so these two fields
do not retain their previous values. -/
theorem remote_fragment_overwrites_linear_x :
    remote_fragment_example.control_mode = CommandMode.REMOTE ∧
    ¬ (((TwistGate.init 0).remote_cmd_callback 0
          remote_fragment_example).1.twist_gate_msg_.linear_x
        = (TwistGate.init 0).twist_gate_msg_.linear_x ∧
       ((TwistGate.init 0).remote_cmd_callback 0
          remote_fragment_example).1.twist_gate_msg_.linear_velocity
        = (TwistGate.init 0).twist_gate_msg_.linear_velocity ∧
       ((TwistGate.init 0).remote_cmd_callback 0
          remote_fragment_example).1.twist_gate_msg_.steering_angle
        = (TwistGate.init 0).twist_gate_msg_.steering_angle) := by
  refine ⟨rfl, ?_⟩
  simp [TwistGate.remote_cmd_callback, TwistGate.init, twist_gate_msgs_t.zero,
    remote_fragment_example]

/-- C7 as amended (frame of an accepted remote fragment): for every state and
every remote fragment whose requested mode is REMOTE, the callback writes,
besides the fields of C6, linear_x (the accel of the fragment), steering_angle
(the steer of the fragment) and the emergency field of the buffer (the stop
request of the fragment); linear_velocity, the one actuation field it does not
write, retains its previous value. -/
theorem remote_fragment_frame (now : Int) (input_msg : remote_msgs_t)
    (s : TwistGate) (h : input_msg.control_mode = CommandMode.REMOTE) :
    (s.remote_cmd_callback now input_msg).1.twist_gate_msg_.linear_velocity
      = s.twist_gate_msg_.linear_velocity ∧
    (s.remote_cmd_callback now input_msg).1.twist_gate_msg_.linear_x
      = input_msg.accel ∧
    (s.remote_cmd_callback now input_msg).1.twist_gate_msg_.steering_angle
      = input_msg.steer ∧
    (s.remote_cmd_callback now input_msg).1.twist_gate_msg_.emergency
      = input_msg.emergency := by
  simp [TwistGate.remote_cmd_callback, h]

/-- Witness of the amended C7: right after the constructor the scenario
fragment keeps linear_velocity and writes its accel into linear_x. -/
theorem remote_fragment_frame_witness :
    remote_fragment_example.control_mode = CommandMode.REMOTE ∧
    ((TwistGate.init 0).remote_cmd_callback 0
      remote_fragment_example).1.twist_gate_msg_.linear_velocity
      = (TwistGate.init 0).twist_gate_msg_.linear_velocity ∧
    ((TwistGate.init 0).remote_cmd_callback 0
      remote_fragment_example).1.twist_gate_msg_.linear_x
      = remote_fragment_example.accel :=
  have w := remote_fragment_frame 0 remote_fragment_example (TwistGate.init 0) rfl
  ⟨rfl, w.1, w.2.1⟩

/-- C8 (unconditional part of a remote fragment, and I2): for every state and
every remote fragment, `remote_cmd_callback` stores the requested mode as it is,
sets the liveness timestamp to the current time and sets the stop-request bit
to the stop request of the fragment; and when the requested mode is not REMOTE
the buffer is unchanged in every field and nothing is sent. -/
theorem remote_fragment_unconditional (now : Int) (input_msg : remote_msgs_t)
    (s : TwistGate) :
    (s.remote_cmd_callback now input_msg).1.command_mode_ = input_msg.control_mode ∧
    (s.remote_cmd_callback now input_msg).1.remote_cmd_time_ = now ∧
    (s.remote_cmd_callback now input_msg).1.emergency_stop_msg_ = input_msg.emergency ∧
    (input_msg.control_mode ≠ CommandMode.REMOTE →
      (s.remote_cmd_callback now input_msg).1.twist_gate_msg_ = s.twist_gate_msg_ ∧
      (s.remote_cmd_callback now input_msg).2 = []) := by
  by_cases h : input_msg.control_mode = CommandMode.REMOTE <;>
    simp [TwistGate.remote_cmd_callback, h]

/-- Witness of C8: in the REMOTE state of the examples, a remote fragment that
requests the unrecognised mode 7 stores 7, and leaves the buffer alone. -/
theorem remote_fragment_unconditional_witness :
    (remote_state_example.remote_cmd_callback 5
      { remote_fragment_example with control_mode := 7 }).1.command_mode_ = 7 ∧
    (remote_state_example.remote_cmd_callback 5
      { remote_fragment_example with control_mode := 7 }).1.remote_cmd_time_ = 5 ∧
    (remote_state_example.remote_cmd_callback 5
      { remote_fragment_example with control_mode := 7 }).1.twist_gate_msg_
      = remote_state_example.twist_gate_msg_ ∧
    (remote_state_example.remote_cmd_callback 5
      { remote_fragment_example with control_mode := 7 }).2 = [] :=
  have w := remote_fragment_unconditional 5
    { remote_fragment_example with control_mode := 7 } remote_state_example
  ⟨w.1, w.2.1, (w.2.2.2 (by decide)).1, (w.2.2.2 (by decide)).2⟩


/-! ## Watchdog -/

/-- One iteration of the watchdog in closed form: the state it leaves and the
outputs it sends, with every condition expressed on the state at the start of
the iteration. -/
theorem TwistGate.watchdog_timer_eq (now_time : Int) (s : TwistGate) :
    s.watchdog_timer now_time =
      ({ s with
         command_mode_ :=
           if (s.command_mode_ = CommandMode.REMOTE ∧
                 now_time - s.remote_cmd_time_ > timeout_period_) ∨
               s.emergency_stop_msg_ = true
           then CommandMode.AUTO else s.command_mode_,
         emergency_stop_msg_ :=
           if (s.command_mode_ = CommandMode.REMOTE ∧
                 now_time - s.remote_cmd_time_ > timeout_period_) ∨
               s.emergency_stop_msg_ = true
           then true else s.emergency_stop_msg_,
         previous_command_mode_ := s.command_mode_,
         command_mode_topic_ :=
           if s.previous_command_mode_ = s.command_mode_ then s.command_mode_topic_
           else if s.command_mode_ = CommandMode.AUTO then "AUTO"
           else if s.command_mode_ = CommandMode.REMOTE then "REMOTE"
           else "UNDEFINED" },
       (if s.previous_command_mode_ = s.command_mode_ then []
        else [Output.ctrl_mode
          (if s.command_mode_ = CommandMode.AUTO then "AUTO"
           else if s.command_mode_ = CommandMode.REMOTE then "REMOTE"
           else "UNDEFINED")]) ++
       (if s.command_mode_ = CommandMode.REMOTE ∧
            now_time - s.remote_cmd_time_ > timeout_period_
        then [Output.warn "Lost Communication!"] else []) ++
       (if s.emergency_stop_msg_ = true then [Output.warn "Emergency Mode!"]
        else []) ++
       (if (s.command_mode_ = CommandMode.REMOTE ∧
              now_time - s.remote_cmd_time_ > timeout_period_) ∨
            s.emergency_stop_msg_ = true
        then [Output.emergency_stop true, Output.warn "Emergency Stop!"]
        else [])) := by
  obtain ⟨buf, stop, t, mode, prev, topic⟩ := s
  unfold TwistGate.watchdog_timer
  simp only [CommandMode.AUTO, CommandMode.REMOTE]
  have hm : mode = 1 ∨ mode = 2 ∨ (mode ≠ 1 ∧ mode ≠ 2) := by omega
  rcases hm with h1 | h1 | ⟨hA, hR⟩ <;>
  by_cases hp : prev = mode <;>
  by_cases ht : now_time - t > timeout_period_ <;>
  cases stop <;>
  subst_vars <;>
  simp [*]

/-- C9 (P5, fail-safe on tick): for every state in which the mode is REMOTE
and the time since the liveness timestamp exceeds the timeout of one second, or
in which the stop-request bit is true, one iteration of the watchdog ends with
mode AUTONOMOUS and the latch true and publishes the emergency flag with value
true; and every autonomous-kind fragment delivered right after it is accepted:
it sends exactly one VehicleCommand, the buffer it has just updated. -/
theorem watchdog_fail_safe (now_time : Int) (s : TwistGate)
    (h : (s.command_mode_ = CommandMode.REMOTE ∧
            now_time - s.remote_cmd_time_ > timeout_period_) ∨
         s.emergency_stop_msg_ = true) :
    (s.watchdog_timer now_time).1.command_mode_ = CommandMode.AUTO ∧
    (s.watchdog_timer now_time).1.emergency_stop_msg_ = true ∧
    Output.emergency_stop true ∈ (s.watchdog_timer now_time).2 ∧
    ∀ f : AutoFragment,
      ((s.watchdog_timer now_time).1.auto_cmd_callback f).2
        = [Output.vehicle_cmd
            ((s.watchdog_timer now_time).1.auto_cmd_callback f).1.twist_gate_msg_] := by
  have hmode : (s.watchdog_timer now_time).1.command_mode_ = CommandMode.AUTO := by
    rw [TwistGate.watchdog_timer_eq]; simp [h]
  refine ⟨hmode, ?_, ?_, ?_⟩
  · rw [TwistGate.watchdog_timer_eq]; simp [h]
  · rw [TwistGate.watchdog_timer_eq]; simp [h]
  · intro f
    cases f <;>
      simp [TwistGate.auto_cmd_callback, TwistGate.auto_cmd_twist_cmd_callback,
        TwistGate.auto_cmd_mode_cmd_callback, TwistGate.auto_cmd_gear_cmd_callback,
        TwistGate.auto_cmd_accel_cmd_callback, TwistGate.auto_cmd_steer_cmd_callback,
        TwistGate.auto_cmd_brake_cmd_callback, TwistGate.auto_cmd_ctrl_cmd_callback,
        hmode]

/-- Witness of C9: the scenario of the specification.  The REMOTE state of the
examples has liveness timestamp 0; at 1.0 s plus one nanosecond the watchdog
raises the emergency. -/
theorem watchdog_fail_safe_witness :
    (remote_state_example.command_mode_ = CommandMode.REMOTE ∧
      1000000001 - remote_state_example.remote_cmd_time_ > timeout_period_) ∧
    (remote_state_example.watchdog_timer 1000000001).1.command_mode_
      = CommandMode.AUTO ∧
    (remote_state_example.watchdog_timer 1000000001).1.emergency_stop_msg_ = true ∧
    Output.emergency_stop true ∈ (remote_state_example.watchdog_timer 1000000001).2 ∧
    ((remote_state_example.watchdog_timer 1000000001).1.auto_cmd_callback
        (AutoFragment.twist_cmd twist_example)).2
      = [Output.vehicle_cmd
          ((remote_state_example.watchdog_timer 1000000001).1.auto_cmd_callback
            (AutoFragment.twist_cmd twist_example)).1.twist_gate_msg_] :=
  have w := watchdog_fail_safe 1000000001 remote_state_example
    (Or.inl ⟨rfl, by decide⟩)
  ⟨⟨rfl, by decide⟩, w.1, w.2.1, w.2.2.1, w.2.2.2 _⟩

/-- C10 (no spurious emergency): one iteration of the watchdog publishes an
emergency flag only if the stop-request bit is true or the mode is REMOTE and
the time since the liveness timestamp strictly exceeds the timeout; in every
other state (mode AUTONOMOUS with the stop bit false whatever the age of the
liveness timestamp, mode REMOTE with an elapsed time at most the timeout) it
leaves mode and latch as they were and publishes no emergency flag. -/
theorem watchdog_no_spurious_emergency (now_time : Int) (s : TwistGate) :
    ((∃ b, Output.emergency_stop b ∈ (s.watchdog_timer now_time).2) →
      (s.command_mode_ = CommandMode.REMOTE ∧
          now_time - s.remote_cmd_time_ > timeout_period_) ∨
        s.emergency_stop_msg_ = true) ∧
    (¬ ((s.command_mode_ = CommandMode.REMOTE ∧
          now_time - s.remote_cmd_time_ > timeout_period_) ∨
        s.emergency_stop_msg_ = true) →
      (s.watchdog_timer now_time).1.command_mode_ = s.command_mode_ ∧
      (s.watchdog_timer now_time).1.emergency_stop_msg_ = s.emergency_stop_msg_ ∧
      ∀ b, Output.emergency_stop b ∉ (s.watchdog_timer now_time).2) := by
  have key : ¬ ((s.command_mode_ = CommandMode.REMOTE ∧
          now_time - s.remote_cmd_time_ > timeout_period_) ∨
        s.emergency_stop_msg_ = true) →
      (s.watchdog_timer now_time).1.command_mode_ = s.command_mode_ ∧
      (s.watchdog_timer now_time).1.emergency_stop_msg_ = s.emergency_stop_msg_ ∧
      ∀ b, Output.emergency_stop b ∉ (s.watchdog_timer now_time).2 := by
    intro hn
    have hn1 : ¬ (s.command_mode_ = CommandMode.REMOTE ∧
          now_time - s.remote_cmd_time_ > timeout_period_) := fun h => hn (Or.inl h)
    have hn2 : ¬ s.emergency_stop_msg_ = true := fun h => hn (Or.inr h)
    rw [TwistGate.watchdog_timer_eq]
    simp only [if_neg hn, if_neg hn1, if_neg hn2]
    refine ⟨trivial, trivial, ?_⟩
    intro b
    by_cases hp : s.previous_command_mode_ = s.command_mode_ <;> simp [hp]
  refine ⟨?_, key⟩
  rintro ⟨b, hb⟩
  by_contra hn
  exact (key hn).2.2 b hb

/-- Witness of C10: in the REMOTE state of the examples (liveness timestamp 0,
stop bit false) an iteration at exactly 1.0 s leaves the mode REMOTE and the
latch false and publishes no emergency flag. -/
theorem watchdog_no_spurious_emergency_witness :
    ¬ ((remote_state_example.command_mode_ = CommandMode.REMOTE ∧
          1000000000 - remote_state_example.remote_cmd_time_ > timeout_period_) ∨
        remote_state_example.emergency_stop_msg_ = true) ∧
    (remote_state_example.watchdog_timer 1000000000).1.command_mode_
      = CommandMode.REMOTE ∧
    (remote_state_example.watchdog_timer 1000000000).1.emergency_stop_msg_ = false ∧
    ∀ b, Output.emergency_stop b ∉ (remote_state_example.watchdog_timer 1000000000).2 :=
  have hn : ¬ ((remote_state_example.command_mode_ = CommandMode.REMOTE ∧
          1000000000 - remote_state_example.remote_cmd_time_ > timeout_period_) ∨
        remote_state_example.emergency_stop_msg_ = true) := by decide
  have w := (watchdog_no_spurious_emergency 1000000000 remote_state_example).2 hn
  ⟨hn, w.1, w.2.1, w.2.2⟩

/-! ## Runs without remote fragments -/

/-- An autonomous callback writes only the buffer: mode, latch, liveness
timestamp, recorded previous mode and announcement text keep their values. -/
theorem TwistGate.auto_cmd_callback_keeps (s : TwistGate) (f : AutoFragment) :
    (s.auto_cmd_callback f).1.command_mode_ = s.command_mode_ ∧
    (s.auto_cmd_callback f).1.emergency_stop_msg_ = s.emergency_stop_msg_ ∧
    (s.auto_cmd_callback f).1.remote_cmd_time_ = s.remote_cmd_time_ ∧
    (s.auto_cmd_callback f).1.previous_command_mode_ = s.previous_command_mode_ ∧
    (s.auto_cmd_callback f).1.command_mode_topic_ = s.command_mode_topic_ := by
  by_cases h : s.command_mode_ = CommandMode.AUTO
  · cases f with
    | mode_cmd msg =>
      by_cases hm : msg.mode = -1 ∨ msg.mode = 0 <;>
        simp [TwistGate.auto_cmd_callback, TwistGate.auto_cmd_mode_cmd_callback,
          TwistGate.reset_vehicle_cmd_msg, h, hm]
    | _ =>
      simp [TwistGate.auto_cmd_callback, TwistGate.auto_cmd_twist_cmd_callback,
        TwistGate.auto_cmd_gear_cmd_callback,
        TwistGate.auto_cmd_accel_cmd_callback, TwistGate.auto_cmd_steer_cmd_callback,
        TwistGate.auto_cmd_brake_cmd_callback, TwistGate.auto_cmd_ctrl_cmd_callback, h]
  · rw [TwistGate.auto_cmd_callback_not_auto s h f]
    exact ⟨rfl, rfl, rfl, rfl, rfl⟩

/-- A property of the state that every step other than a remote fragment
preserves holds at the end of every run without remote fragments. -/
theorem TwistGate.run_preserves (P : TwistGate → Prop)
    (hstep : ∀ (s : TwistGate) (e : Event), e.is_remote = false → P s → P (s.step e).1)
    (es : List Event) (hes : ∀ e ∈ es, e.is_remote = false)
    (s : TwistGate) (h : P s) : P (s.run es).1 := by
  induction es generalizing s with
  | nil => exact h
  | cons e es ih =>
    simp only [TwistGate.run]
    exact ih (fun e1 h1 => hes e1 (List.mem_cons_of_mem _ h1)) _
      (hstep s e (hes e (List.mem_cons_self _ _)) h)

/-- A step other than a remote fragment keeps a true latch true. -/
theorem TwistGate.step_keeps_latch (s : TwistGate) (e : Event)
    (he : e.is_remote = false) (h : s.emergency_stop_msg_ = true) :
    (s.step e).1.emergency_stop_msg_ = true := by
  cases e with
  | remote now msg => simp [Event.is_remote] at he
  | auto f =>
    simp only [TwistGate.step]
    rw [(TwistGate.auto_cmd_callback_keeps s f).2.1]
    exact h
  | tick now_time =>
    simp only [TwistGate.step]
    rw [TwistGate.watchdog_timer_eq]
    simp [h]

/-- A run of autonomous fragments only keeps mode, latch, liveness timestamp
and recorded previous mode. -/
theorem TwistGate.run_auto_keeps (fs : List AutoFragment) (s : TwistGate) :
    (s.run (fs.map Event.auto)).1.command_mode_ = s.command_mode_ ∧
    (s.run (fs.map Event.auto)).1.emergency_stop_msg_ = s.emergency_stop_msg_ ∧
    (s.run (fs.map Event.auto)).1.remote_cmd_time_ = s.remote_cmd_time_ ∧
    (s.run (fs.map Event.auto)).1.previous_command_mode_ = s.previous_command_mode_ := by
  induction fs generalizing s with
  | nil => exact ⟨rfl, rfl, rfl, rfl⟩
  | cons f fs ih =>
    have k := TwistGate.auto_cmd_callback_keeps s f
    have i := ih (s.auto_cmd_callback f).1
    simp only [List.map_cons, TwistGate.run, TwistGate.step]
    exact ⟨i.1.trans k.1, i.2.1.trans k.2.1, i.2.2.1.trans k.2.2.1,
      i.2.2.2.trans k.2.2.2.1⟩

/-- Right after one iteration of the watchdog a true latch comes with mode
AUTONOMOUS. -/
theorem TwistGate.watchdog_timer_latch_auto (now_time : Int) (s : TwistGate)
    (h : (s.watchdog_timer now_time).1.emergency_stop_msg_ = true) :
    (s.watchdog_timer now_time).1.command_mode_ = CommandMode.AUTO := by
  rw [TwistGate.watchdog_timer_eq] at h ⊢
  by_cases hr : (s.command_mode_ = CommandMode.REMOTE ∧
      now_time - s.remote_cmd_time_ > timeout_period_) ∨ s.emergency_stop_msg_ = true
  · simp only [if_pos hr]
  · have hl : ¬ s.emergency_stop_msg_ = true := fun hl => hr (Or.inr hl)
    simp only [if_neg hr] at h
    exact absurd h hl

/-! ## Emergency latch -/

/-- Counterexample to C11 (I3) as stated: the state reached from the initial
state by one remote fragment that requests REMOTE together with a stop has the
latch `emergency_stop_msg_.data` true while the mode is REMOTE, not
AUTONOMOUS. -/
theorem latch_true_in_remote_mode :
    ((TwistGate.init 0).run
      [Event.remote 0 stop_request_example]).1.emergency_stop_msg_ = true ∧
    ((TwistGate.init 0).run
      [Event.remote 0 stop_request_example]).1.command_mode_ = CommandMode.REMOTE ∧
    ¬ (((TwistGate.init 0).run
          [Event.remote 0 stop_request_example]).1.emergency_stop_msg_ = true →
        ((TwistGate.init 0).run
          [Event.remote 0 stop_request_example]).1.command_mode_ = CommandMode.AUTO) := by
  decide

/-- C11 as amended (I3 after a tick): from every state, right after one
iteration of the watchdog, and after any autonomous-kind fragments delivered
after it, the latch being true implies that the mode is AUTONOMOUS. -/
theorem latch_implies_auto_after_tick (s : TwistGate) (now_time : Int)
    (fs : List AutoFragment)
    (h : (((s.watchdog_timer now_time).1.run
            (fs.map Event.auto)).1.emergency_stop_msg_ = true)) :
    ((s.watchdog_timer now_time).1.run (fs.map Event.auto)).1.command_mode_
      = CommandMode.AUTO := by
  have k := TwistGate.run_auto_keeps fs (s.watchdog_timer now_time).1
  rw [k.1]
  rw [k.2.1] at h
  exact TwistGate.watchdog_timer_latch_auto now_time s h

/-- Witness of the amended C11: from the state with mode REMOTE and the stop
bit set, one tick and a motion fragment lead to a state with the latch true and
the mode AUTONOMOUS. -/
theorem latch_implies_auto_after_tick_witness :
    ((stop_state_example.watchdog_timer 0).1.run
      ([AutoFragment.twist_cmd twist_example].map Event.auto)).1.emergency_stop_msg_
      = true ∧
    ((stop_state_example.watchdog_timer 0).1.run
      ([AutoFragment.twist_cmd twist_example].map Event.auto)).1.command_mode_
      = CommandMode.AUTO :=
  ⟨by decide, latch_implies_auto_after_tick stop_state_example 0
      [AutoFragment.twist_cmd twist_example] (by decide)⟩

/-- Counterexample to C12 as stated: from the initial state, a remote fragment
that requests a stop and one tick set the latch to true; one more remote
fragment, whose stop request is false, sets it back to false. -/
theorem remote_fragment_clears_latch :
    ((TwistGate.init 0).run
      [Event.remote 0 stop_request_example, Event.tick 0]).1.emergency_stop_msg_
      = true ∧
    Output.emergency_stop true ∈ ((TwistGate.init 0).run
      [Event.remote 0 stop_request_example, Event.tick 0]).2 ∧
    ((TwistGate.init 0).run
      [Event.remote 0 stop_request_example, Event.tick 0,
       Event.remote 0 remote_fragment_example]).1.emergency_stop_msg_ = false := by
  decide

/-- C12 as amended (latch sticky except for remote fragments): from every
state in which the latch is true, every run of autonomous-kind fragments and
watchdog ticks (no remote fragment) ends with the latch still true; a remote
fragment instead overwrites the latch with its own stop request. -/
theorem latch_sticky_without_remote (s : TwistGate)
    (h : s.emergency_stop_msg_ = true) :
    (∀ es : List Event, (∀ e ∈ es, e.is_remote = false) →
      (s.run es).1.emergency_stop_msg_ = true) ∧
    (∀ (now : Int) (input_msg : remote_msgs_t),
      (s.remote_cmd_callback now input_msg).1.emergency_stop_msg_
        = input_msg.emergency) := by
  refine ⟨?_, ?_⟩
  · intro es hes
    exact TwistGate.run_preserves (fun x => x.emergency_stop_msg_ = true)
      TwistGate.step_keeps_latch es hes s h
  · intro now input_msg
    by_cases hm : input_msg.control_mode = CommandMode.REMOTE <;>
      simp [TwistGate.remote_cmd_callback, hm]

/-- Witness of the amended C12: after the stop request and the latching tick,
a motion fragment and two more ticks leave the latch true. -/
theorem latch_sticky_without_remote_witness :
    (stop_state_example.watchdog_timer 0).1.emergency_stop_msg_ = true ∧
    ((stop_state_example.watchdog_timer 0).1.run
      [Event.auto (AutoFragment.twist_cmd twist_example), Event.tick 10,
       Event.tick 20]).1.emergency_stop_msg_ = true :=
  ⟨by decide,
   (latch_sticky_without_remote (stop_state_example.watchdog_timer 0).1
      (by decide)).1 _ (by decide)⟩

/-! ## Mode-name announcement -/

theorem announcements_append (a b : List Output) :
    announcements (a ++ b) = announcements a ++ announcements b := by
  simp [announcements, List.filterMap_append]

/-- The announcements of one iteration of the watchdog: none when the mode is
the recorded previous mode, else the name of the mode. -/
theorem TwistGate.watchdog_timer_announcements (now_time : Int) (s : TwistGate) :
    announcements (s.watchdog_timer now_time).2 =
      if s.previous_command_mode_ = s.command_mode_ then []
      else [if s.command_mode_ = CommandMode.AUTO then "AUTO"
            else if s.command_mode_ = CommandMode.REMOTE then "REMOTE"
            else "UNDEFINED"] := by
  rw [TwistGate.watchdog_timer_eq]
  simp only [announcements, List.filterMap_append]
  split_ifs <;> simp

/-- One iteration of the watchdog records the mode it started with as the
previous mode. -/
theorem TwistGate.watchdog_timer_previous (now_time : Int) (s : TwistGate) :
    (s.watchdog_timer now_time).1.previous_command_mode_ = s.command_mode_ := by
  rw [TwistGate.watchdog_timer_eq]

theorem mem_announcements (os : List Output) (text : String) :
    text ∈ announcements os ↔ Output.ctrl_mode text ∈ os := by
  induction os with
  | nil => simp [announcements]
  | cons o os ih =>
    cases o <;> simp_all [announcements, List.filterMap_cons]

/-- Ticks only, mode already recorded as previous and not changing: nothing is
announced. -/
theorem TwistGate.run_ticks_silent (nows : List Int) (s : TwistGate)
    (hp : s.previous_command_mode_ = s.command_mode_)
    (hm : ∀ k, k ≤ nows.length →
      (s.run ((nows.take k).map Event.tick)).1.command_mode_ = s.command_mode_) :
    announcements (s.run (nows.map Event.tick)).2 = [] := by
  induction nows generalizing s with
  | nil => simp [TwistGate.run, announcements]
  | cons n rest ih =>
    have h1 : (s.watchdog_timer n).1.command_mode_ = s.command_mode_ := by
      have := hm 1 (by simp)
      simpa [TwistGate.run, TwistGate.step] using this
    have hp1 : (s.watchdog_timer n).1.previous_command_mode_
        = (s.watchdog_timer n).1.command_mode_ := by
      rw [TwistGate.watchdog_timer_previous, h1]
    have hm1 : ∀ k, k ≤ rest.length →
        ((s.watchdog_timer n).1.run ((rest.take k).map Event.tick)).1.command_mode_
          = (s.watchdog_timer n).1.command_mode_ := by
      intro k hk
      have := hm (k + 1) (by simp; omega)
      rw [h1]
      simpa [TwistGate.run, TwistGate.step] using this
    have i := ih (s.watchdog_timer n).1 hp1 hm1
    simp only [List.map_cons, TwistGate.run, TwistGate.step, announcements_append, i,
      TwistGate.watchdog_timer_announcements, if_pos hp, List.append_nil]

/-- C13 (P6, edge-triggered announcement): one iteration of the watchdog sends
a mode-name announcement if and only if the mode at its start differs from the
mode recorded by the previous iteration, it sends at most one, and it leaves
the mode it started with recorded as previous; hence over consecutive ticks
across which the mode keeps its value, at most one announcement is sent, and
every announcement of the stretch is sent by the first tick. -/
theorem announcement_edge_triggered (s : TwistGate) (now_time : Int) :
    ((∃ text, Output.ctrl_mode text ∈ (s.watchdog_timer now_time).2) ↔
      s.command_mode_ ≠ s.previous_command_mode_) ∧
    (announcements (s.watchdog_timer now_time).2).length ≤ 1 ∧
    (s.watchdog_timer now_time).1.previous_command_mode_ = s.command_mode_ ∧
    ∀ nows : List Int,
      (∀ k, k ≤ nows.length →
        (s.run ((nows.take k).map Event.tick)).1.command_mode_ = s.command_mode_) →
      (announcements (s.run (nows.map Event.tick)).2).length ≤ 1 ∧
      announcements (s.run (nows.map Event.tick)).2
        = announcements (s.run ((nows.take 1).map Event.tick)).2 := by
  have ha := TwistGate.watchdog_timer_announcements now_time s
  refine ⟨?_, ?_, TwistGate.watchdog_timer_previous now_time s, ?_⟩
  · constructor
    · rintro ⟨text, ht⟩ heq
      rw [← mem_announcements, ha, if_pos heq.symm] at ht
      simp at ht
    · intro hne
      have hne2 : ¬ s.previous_command_mode_ = s.command_mode_ := fun h => hne h.symm
      rw [if_neg hne2] at ha
      refine ⟨if s.command_mode_ = CommandMode.AUTO then "AUTO"
        else if s.command_mode_ = CommandMode.REMOTE then "REMOTE"
        else "UNDEFINED", (mem_announcements _ _).1 ?_⟩
      rw [ha]
      exact List.mem_singleton.2 rfl
  · rw [ha]
    split_ifs <;> simp
  · intro nows hm
    cases nows with
    | nil => simp [TwistGate.run, announcements]
    | cons n rest =>
      have h1 : (s.watchdog_timer n).1.command_mode_ = s.command_mode_ := by
        have := hm 1 (by simp)
        simpa [TwistGate.run, TwistGate.step] using this
      have hp1 : (s.watchdog_timer n).1.previous_command_mode_
          = (s.watchdog_timer n).1.command_mode_ := by
        rw [TwistGate.watchdog_timer_previous, h1]
      have hm1 : ∀ k, k ≤ rest.length →
          ((s.watchdog_timer n).1.run ((rest.take k).map Event.tick)).1.command_mode_
            = (s.watchdog_timer n).1.command_mode_ := by
        intro k hk
        have := hm (k + 1) (by simp; omega)
        rw [h1]
        simpa [TwistGate.run, TwistGate.step] using this
      have i := TwistGate.run_ticks_silent rest (s.watchdog_timer n).1 hp1 hm1
      have e : announcements (s.run ((n :: rest).map Event.tick)).2
          = announcements (s.watchdog_timer n).2 := by
        simp only [List.map_cons, TwistGate.run, TwistGate.step, announcements_append, i,
          List.append_nil]
      refine ⟨?_, ?_⟩
      · rw [e, TwistGate.watchdog_timer_announcements]
        split_ifs <;> simp
      · rw [e]
        simp [TwistGate.run, TwistGate.step, announcements_append]

/-- Witness of C13: in the REMOTE state of the examples (recorded previous mode
AUTONOMOUS, no time-out within the first second) three consecutive ticks keep
the mode and send the announcement once, on the first tick. -/
theorem announcement_edge_triggered_witness :
    (∀ k, k ≤ [10, 20, 30].length →
      (remote_state_example.run (([10, 20, 30].take k).map Event.tick)).1.command_mode_
        = remote_state_example.command_mode_) ∧
    (announcements (remote_state_example.run
      ([10, 20, 30].map Event.tick)).2).length ≤ 1 ∧
    announcements (remote_state_example.run ([10, 20, 30].map Event.tick)).2
      = announcements (remote_state_example.run (([10, 20, 30].take 1).map Event.tick)).2 :=
  have hm : ∀ k, k ≤ [10, 20, 30].length →
      (remote_state_example.run (([10, 20, 30].take k).map Event.tick)).1.command_mode_
        = remote_state_example.command_mode_ := by
    intro k hk
    have hk3 : k ≤ 3 := hk
    interval_cases k <;> decide
  ⟨hm, (announcement_edge_triggered remote_state_example 0).2.2.2 [10, 20, 30] hm⟩

/-- C14 (announcement text): whenever one iteration of the watchdog sends a
mode-name announcement, its text is AUTO if the mode at the start of the
iteration is AUTONOMOUS (1), REMOTE if it is REMOTE (2) and UNDEFINED for every
other stored integer; and a remote fragment whose requested mode is neither 1
nor 2 has that value stored as it is, and the next tick announces UNDEFINED
for it (when it differs from the recorded previous mode). -/
theorem announcement_text (s : TwistGate) (now_time : Int) :
    (∀ text, Output.ctrl_mode text ∈ (s.watchdog_timer now_time).2 →
      text = if s.command_mode_ = CommandMode.AUTO then "AUTO"
             else if s.command_mode_ = CommandMode.REMOTE then "REMOTE"
             else "UNDEFINED") ∧
    (∀ (now : Int) (input_msg : remote_msgs_t),
      input_msg.control_mode ≠ CommandMode.AUTO →
      input_msg.control_mode ≠ CommandMode.REMOTE →
      (s.remote_cmd_callback now input_msg).1.command_mode_ = input_msg.control_mode ∧
      (s.previous_command_mode_ ≠ input_msg.control_mode →
        announcements
          ((s.remote_cmd_callback now input_msg).1.watchdog_timer now_time).2
          = ["UNDEFINED"])) := by
  refine ⟨?_, ?_⟩
  · intro text ht
    rw [← mem_announcements, TwistGate.watchdog_timer_announcements] at ht
    split_ifs at ht ⊢ <;> simp_all
  · intro now input_msg hA hR
    have hmode : (s.remote_cmd_callback now input_msg).1.command_mode_
        = input_msg.control_mode := by
      simp [TwistGate.remote_cmd_callback, hR]
    have hprev : (s.remote_cmd_callback now input_msg).1.previous_command_mode_
        = s.previous_command_mode_ := by
      simp [TwistGate.remote_cmd_callback, hR]
    refine ⟨hmode, ?_⟩
    intro hne
    rw [TwistGate.watchdog_timer_announcements, hmode, hprev, if_neg hne, if_neg hA,
      if_neg hR]

/-- Witness of C14: after the constructor, a remote fragment that requests
mode 7 is stored as 7 and the next tick announces UNDEFINED. -/
theorem announcement_text_witness :
    ((TwistGate.init 0).remote_cmd_callback 0
      { remote_fragment_example with control_mode := 7 }).1.command_mode_ = 7 ∧
    announcements
      (((TwistGate.init 0).remote_cmd_callback 0
        { remote_fragment_example with control_mode := 7 }).1.watchdog_timer 10).2
      = ["UNDEFINED"] :=
  have w := (announcement_text (TwistGate.init 0) 10).2 0
    { remote_fragment_example with control_mode := 7 } (by decide) (by decide)
  ⟨w.1, w.2 (by decide)⟩

/-! ## Emergency output on every tick -/

theorem emergency_flags_append (a b : List Output) :
    emergency_flags (a ++ b) = emergency_flags a ++ emergency_flags b := by
  simp [emergency_flags, List.filterMap_append]

theorem vehicle_cmds_append (a b : List Output) :
    vehicle_cmds (a ++ b) = vehicle_cmds a ++ vehicle_cmds b := by
  induction a with
  | nil => rfl
  | cons o os ih => cases o <;> simp [vehicle_cmds, ih]

/-- The emergency flags of one iteration of the watchdog: one flag with value
true when the emergency condition holds at its start, none otherwise. -/
theorem TwistGate.watchdog_timer_emergency_flags (now_time : Int) (s : TwistGate) :
    emergency_flags (s.watchdog_timer now_time).2 =
      if (s.command_mode_ = CommandMode.REMOTE ∧
            now_time - s.remote_cmd_time_ > timeout_period_) ∨
          s.emergency_stop_msg_ = true
      then [true] else [] := by
  rw [TwistGate.watchdog_timer_eq]
  simp only [emergency_flags, List.filterMap_append]
  by_cases hr : (s.command_mode_ = CommandMode.REMOTE ∧
      now_time - s.remote_cmd_time_ > timeout_period_) ∨ s.emergency_stop_msg_ = true
  · simp only [if_pos hr]
    split_ifs <;> simp
  · simp only [if_neg hr]
    split_ifs <;> simp

/-- One iteration of the watchdog sends no VehicleCommand. -/
theorem TwistGate.watchdog_timer_vehicle_cmds (now_time : Int) (s : TwistGate) :
    vehicle_cmds (s.watchdog_timer now_time).2 = [] := by
  rw [TwistGate.watchdog_timer_eq]
  simp only [vehicle_cmds_append]
  split_ifs <;> simp [vehicle_cmds]

/-- A step other than a remote fragment keeps the pair latch true, mode
AUTONOMOUS. -/
theorem TwistGate.step_keeps_latch_auto (s : TwistGate) (e : Event)
    (he : e.is_remote = false)
    (h : s.emergency_stop_msg_ = true ∧ s.command_mode_ = CommandMode.AUTO) :
    (s.step e).1.emergency_stop_msg_ = true ∧
    (s.step e).1.command_mode_ = CommandMode.AUTO := by
  cases e with
  | remote now msg => simp [Event.is_remote] at he
  | auto f =>
    simp only [TwistGate.step]
    rw [(TwistGate.auto_cmd_callback_keeps s f).2.1,
      (TwistGate.auto_cmd_callback_keeps s f).1]
    exact h
  | tick now_time =>
    simp only [TwistGate.step]
    rw [TwistGate.watchdog_timer_eq]
    simp [h.1]

/-- C15 (level-triggered emergency output): after an iteration of the watchdog
that raised an emergency (by loss of communication or by stop request), and
after any further ticks and autonomous-kind fragments but no remote fragment,
every subsequent watchdog tick publishes the emergency flag exactly once, with
value true, and leaves the mode AUTONOMOUS. -/
theorem emergency_flag_level_triggered (s : TwistGate) (now_time : Int)
    (h : (s.command_mode_ = CommandMode.REMOTE ∧
            now_time - s.remote_cmd_time_ > timeout_period_) ∨
         s.emergency_stop_msg_ = true)
    (es : List Event) (hes : ∀ e ∈ es, e.is_remote = false) (now2 : Int) :
    emergency_flags
      ((((s.watchdog_timer now_time).1.run es).1.watchdog_timer now2).2) = [true] ∧
    (((s.watchdog_timer now_time).1.run es).1.watchdog_timer now2).1.command_mode_
      = CommandMode.AUTO := by
  have h0 : (s.watchdog_timer now_time).1.emergency_stop_msg_ = true ∧
      (s.watchdog_timer now_time).1.command_mode_ = CommandMode.AUTO := by
    rw [TwistGate.watchdog_timer_eq]
    simp [h]
  have hJ := TwistGate.run_preserves
    (fun x => x.emergency_stop_msg_ = true ∧ x.command_mode_ = CommandMode.AUTO)
    TwistGate.step_keeps_latch_auto es hes (s.watchdog_timer now_time).1 h0
  have hr : ((((s.watchdog_timer now_time).1.run es).1.command_mode_ = CommandMode.REMOTE ∧
      now2 - ((s.watchdog_timer now_time).1.run es).1.remote_cmd_time_ > timeout_period_) ∨
      ((s.watchdog_timer now_time).1.run es).1.emergency_stop_msg_ = true) :=
    Or.inr hJ.1
  refine ⟨?_, ?_⟩
  · rw [TwistGate.watchdog_timer_emergency_flags, if_pos hr]
  · exact (TwistGate.step_keeps_latch_auto _ (Event.tick now2) rfl hJ).2

/-- Witness of C15: the REMOTE state of the examples times out at 1.0 s plus
one nanosecond; after a motion fragment and another tick, the tick that
follows still publishes the flag and the mode is AUTONOMOUS. -/
theorem emergency_flag_level_triggered_witness :
    ((remote_state_example.command_mode_ = CommandMode.REMOTE ∧
        1000000001 - remote_state_example.remote_cmd_time_ > timeout_period_) ∨
      remote_state_example.emergency_stop_msg_ = true) ∧
    emergency_flags
      ((((remote_state_example.watchdog_timer 1000000001).1.run
        [Event.auto (AutoFragment.twist_cmd twist_example),
         Event.tick 1010000001]).1.watchdog_timer 1020000001).2) = [true] ∧
    (((remote_state_example.watchdog_timer 1000000001).1.run
        [Event.auto (AutoFragment.twist_cmd twist_example),
         Event.tick 1010000001]).1.watchdog_timer 1020000001).1.command_mode_
      = CommandMode.AUTO :=
  ⟨Or.inl ⟨rfl, by decide⟩,
   emergency_flag_level_triggered remote_state_example 1000000001
     (Or.inl ⟨rfl, by decide⟩) _ (by decide) 1020000001⟩

/-! ## Initial state -/

/-- Counterexample to C16 as stated: the buffer built by the constructor has
linear_velocity 0, not the -1 that `reset_vehicle_cmd_msg` stores, so it is not
the buffer produced by the reset. -/
theorem initial_buffer_differs_from_reset :
    (TwistGate.init 0).twist_gate_msg_.linear_velocity = 0 ∧
    (TwistGate.init 0).reset_vehicle_cmd_msg.twist_gate_msg_.linear_velocity = -1 ∧
    (TwistGate.init 0).twist_gate_msg_
      ≠ (TwistGate.init 0).reset_vehicle_cmd_msg.twist_gate_msg_ := by
  refine ⟨rfl, rfl, ?_⟩
  intro h
  have h2 := congrArg twist_gate_msgs_t.linear_velocity h
  simp [TwistGate.init, TwistGate.reset_vehicle_cmd_msg, TwistGate.reset_msg,
    twist_gate_msgs_t.zero] at h2

/-- C16 as amended (initial state): the state built by the constructor has
mode AUTONOMOUS, previous mode AUTONOMOUS, latch false, sequence 0, liveness
timestamp equal to the start time, and a value-initialised buffer, every
command field 0 or false, linear_velocity included; the buffer produced by
`reset_vehicle_cmd_msg` differs from it in linear_velocity only. -/
theorem initial_state (now : Int) :
    (TwistGate.init now).command_mode_ = CommandMode.AUTO ∧
    (TwistGate.init now).previous_command_mode_ = CommandMode.AUTO ∧
    (TwistGate.init now).emergency_stop_msg_ = false ∧
    (TwistGate.init now).twist_gate_msg_.header.seq = 0 ∧
    (TwistGate.init now).remote_cmd_time_ = now ∧
    (TwistGate.init now).twist_gate_msg_.linear_x = 0 ∧
    (TwistGate.init now).twist_gate_msg_.angular_z = 0 ∧
    (TwistGate.init now).twist_gate_msg_.mode = 0 ∧
    (TwistGate.init now).twist_gate_msg_.gear = 0 ∧
    (TwistGate.init now).twist_gate_msg_.blinker = 0 ∧
    (TwistGate.init now).twist_gate_msg_.accel = 0 ∧
    (TwistGate.init now).twist_gate_msg_.brake = 0 ∧
    (TwistGate.init now).twist_gate_msg_.steer = 0 ∧
    (TwistGate.init now).twist_gate_msg_.linear_velocity = 0 ∧
    (TwistGate.init now).twist_gate_msg_.steering_angle = 0 ∧
    (TwistGate.init now).twist_gate_msg_.emergency = false ∧
    (TwistGate.init now).reset_vehicle_cmd_msg.twist_gate_msg_
      = { (TwistGate.init now).twist_gate_msg_ with linear_velocity := -1 } := by
  simp [TwistGate.init, TwistGate.reset_vehicle_cmd_msg, TwistGate.reset_msg,
    twist_gate_msgs_t.zero]

/-! ## Emission per fragment -/

/-- An autonomous fragment delivered in mode AUTONOMOUS sends exactly one
output, the buffer as the callback leaves it. -/
theorem TwistGate.auto_cmd_callback_auto (s : TwistGate)
    (h : s.command_mode_ = CommandMode.AUTO) (f : AutoFragment) :
    (s.auto_cmd_callback f).2
      = [Output.vehicle_cmd (s.auto_cmd_callback f).1.twist_gate_msg_] := by
  cases f <;>
    simp [TwistGate.auto_cmd_callback, TwistGate.auto_cmd_twist_cmd_callback,
      TwistGate.auto_cmd_mode_cmd_callback, TwistGate.auto_cmd_gear_cmd_callback,
      TwistGate.auto_cmd_accel_cmd_callback, TwistGate.auto_cmd_steer_cmd_callback,
      TwistGate.auto_cmd_brake_cmd_callback, TwistGate.auto_cmd_ctrl_cmd_callback, h]

/-- C17 (one emission per accepted fragment): every fragment-delivery call
sends either nothing or exactly one VehicleCommand, equal to the buffer as it
stands when the call returns.  An autonomous-kind fragment sends the one
snapshot exactly when the mode is AUTONOMOUS, a remote fragment exactly when
its requested mode is REMOTE; a fragment that is not accepted sends nothing. -/
theorem one_emission_per_fragment (s : TwistGate) :
    (∀ f : AutoFragment,
      (s.command_mode_ = CommandMode.AUTO →
        vehicle_cmds (s.auto_cmd_callback f).2
          = [(s.auto_cmd_callback f).1.twist_gate_msg_]) ∧
      (s.command_mode_ ≠ CommandMode.AUTO →
        vehicle_cmds (s.auto_cmd_callback f).2 = [])) ∧
    (∀ (now : Int) (input_msg : remote_msgs_t),
      (input_msg.control_mode = CommandMode.REMOTE →
        vehicle_cmds (s.remote_cmd_callback now input_msg).2
          = [(s.remote_cmd_callback now input_msg).1.twist_gate_msg_]) ∧
      (input_msg.control_mode ≠ CommandMode.REMOTE →
        vehicle_cmds (s.remote_cmd_callback now input_msg).2 = [])) := by
  refine ⟨?_, ?_⟩
  · intro f
    refine ⟨?_, ?_⟩
    · intro h
      rw [TwistGate.auto_cmd_callback_auto s h f]
      rfl
    · intro h
      rw [TwistGate.auto_cmd_callback_not_auto s h f]
      rfl
  · intro now input_msg
    refine ⟨?_, ?_⟩
    · intro h
      simp [TwistGate.remote_cmd_callback, h, vehicle_cmds]
    · intro h
      simp [TwistGate.remote_cmd_callback, h, vehicle_cmds]

/-- Witness of C17: right after the constructor a motion fragment sends one
snapshot, the updated buffer; in the REMOTE state of the examples it sends
none. -/
theorem one_emission_per_fragment_witness :
    vehicle_cmds ((TwistGate.init 0).auto_cmd_callback
        (AutoFragment.twist_cmd twist_example)).2
      = [((TwistGate.init 0).auto_cmd_callback
          (AutoFragment.twist_cmd twist_example)).1.twist_gate_msg_] ∧
    vehicle_cmds (remote_state_example.auto_cmd_callback
        (AutoFragment.twist_cmd twist_example)).2 = [] :=
  ⟨((one_emission_per_fragment (TwistGate.init 0)).1
      (AutoFragment.twist_cmd twist_example)).1 rfl,
   ((one_emission_per_fragment remote_state_example).1
      (AutoFragment.twist_cmd twist_example)).2 (by decide)⟩

/-! ## Unrecognised mode -/

/-- A step other than a remote fragment, taken in a state whose mode is neither
AUTONOMOUS nor REMOTE and whose stop bit is false, keeps mode, stop bit and
buffer and sends neither an emergency flag nor a VehicleCommand. -/
theorem TwistGate.step_unrecognized (s : TwistGate) (e : Event)
    (he : e.is_remote = false)
    (hA : s.command_mode_ ≠ CommandMode.AUTO)
    (hR : s.command_mode_ ≠ CommandMode.REMOTE)
    (hs : s.emergency_stop_msg_ = false) :
    (s.step e).1.command_mode_ = s.command_mode_ ∧
    (s.step e).1.emergency_stop_msg_ = false ∧
    (s.step e).1.twist_gate_msg_ = s.twist_gate_msg_ ∧
    emergency_flags (s.step e).2 = [] ∧
    vehicle_cmds (s.step e).2 = [] := by
  cases e with
  | remote now msg => simp [Event.is_remote] at he
  | auto f =>
    simp only [TwistGate.step]
    rw [TwistGate.auto_cmd_callback_not_auto s hA f]
    exact ⟨rfl, hs, rfl, rfl, rfl⟩
  | tick now_time =>
    simp only [TwistGate.step]
    have hn2 : ¬ ((s.command_mode_ = CommandMode.REMOTE ∧
        now_time - s.remote_cmd_time_ > timeout_period_) ∨
        s.emergency_stop_msg_ = true) := by
      simp [hR, hs]
    refine ⟨?_, ?_, ?_, ?_, TwistGate.watchdog_timer_vehicle_cmds now_time s⟩
    · rw [TwistGate.watchdog_timer_eq]; simp only [if_neg hn2]
    · rw [TwistGate.watchdog_timer_eq]; simp only [if_neg hn2]; exact hs
    · rw [TwistGate.watchdog_timer_eq]
    · rw [TwistGate.watchdog_timer_emergency_flags, if_neg hn2]

/-- C19 (unrecognised mode has no fail-safe): in every state whose mode value
is neither AUTONOMOUS (1) nor REMOTE (2) and whose stop-request bit is false,
every autonomous-kind fragment leaves the state as it is and sends nothing, a
watchdog tick raises no emergency whatever the liveness timestamp and leaves
the mode value unchanged, and every run without a remote fragment ends with
the same mode value and the same buffer, having sent no emergency flag and no
VehicleCommand: only a remote fragment can leave such a state. -/
theorem unrecognized_mode_no_fail_safe (s : TwistGate)
    (hA : s.command_mode_ ≠ CommandMode.AUTO)
    (hR : s.command_mode_ ≠ CommandMode.REMOTE)
    (hs : s.emergency_stop_msg_ = false) :
    (∀ f : AutoFragment, s.auto_cmd_callback f = (s, [])) ∧
    (∀ now_time : Int,
      (s.watchdog_timer now_time).1.command_mode_ = s.command_mode_ ∧
      (s.watchdog_timer now_time).1.emergency_stop_msg_ = false ∧
      emergency_flags (s.watchdog_timer now_time).2 = []) ∧
    (∀ es : List Event, (∀ e ∈ es, e.is_remote = false) →
      (s.run es).1.command_mode_ = s.command_mode_ ∧
      (s.run es).1.twist_gate_msg_ = s.twist_gate_msg_ ∧
      emergency_flags (s.run es).2 = [] ∧
      vehicle_cmds (s.run es).2 = []) := by
  refine ⟨TwistGate.auto_cmd_callback_not_auto s hA, ?_, ?_⟩
  · intro now_time
    have k := TwistGate.step_unrecognized s (Event.tick now_time) rfl hA hR hs
    exact ⟨k.1, k.2.1, k.2.2.2.1⟩
  · intro es hes
    induction es generalizing s with
    | nil => exact ⟨rfl, rfl, rfl, rfl⟩
    | cons e es ih =>
      have k := TwistGate.step_unrecognized s e (hes e (List.mem_cons_self _ _)) hA hR hs
      have i := ih (s.step e).1 (by rw [k.1]; exact hA) (by rw [k.1]; exact hR) k.2.1
        (fun e1 h1 => hes e1 (List.mem_cons_of_mem _ h1))
      simp only [TwistGate.run, emergency_flags_append, vehicle_cmds_append]
      refine ⟨i.1.trans k.1, i.2.1.trans k.2.2.1, ?_, ?_⟩
      · rw [k.2.2.2.1, i.2.2.1]; rfl
      · rw [k.2.2.2.2, i.2.2.2]; rfl

/-- Witness of C19: after the constructor at time 0 and one remote fragment
that requests the unrecognised mode 7, a tick at 5 s, a motion fragment and a
tick at 9 s leave the mode at 7 and publish no emergency flag. -/
theorem unrecognized_mode_no_fail_safe_witness :
    ((TwistGate.init 0).remote_cmd_callback 0
      { remote_fragment_example with control_mode := 7 }).1.command_mode_ = 7 ∧
    ((((TwistGate.init 0).remote_cmd_callback 0
      { remote_fragment_example with control_mode := 7 }).1.run
        [Event.tick 5000000000, Event.auto (AutoFragment.twist_cmd twist_example),
         Event.tick 9000000000]).1.command_mode_ = 7) ∧
    emergency_flags ((((TwistGate.init 0).remote_cmd_callback 0
      { remote_fragment_example with control_mode := 7 }).1.run
        [Event.tick 5000000000, Event.auto (AutoFragment.twist_cmd twist_example),
         Event.tick 9000000000]).2) = [] :=
  have w := (unrecognized_mode_no_fail_safe
    ((TwistGate.init 0).remote_cmd_callback 0
      { remote_fragment_example with control_mode := 7 }).1
    (by decide) (by decide) (by decide)).2.2
    [Event.tick 5000000000, Event.auto (AutoFragment.twist_cmd twist_example),
     Event.tick 9000000000] (by decide)
  ⟨by decide, w.1, w.2.2.1⟩

/-! ## Watchdog frame -/

/-- C20 (watchdog frame): for every state, one iteration of the watchdog, also
one that raises an emergency, leaves the whole VehicleCommand buffer (command
fields, header with the sequence number, and the emergency field of the buffer)
and the liveness timestamp as they were and sends no VehicleCommand. -/
theorem watchdog_frame (s : TwistGate) (now_time : Int) :
    (s.watchdog_timer now_time).1.twist_gate_msg_ = s.twist_gate_msg_ ∧
    (s.watchdog_timer now_time).1.remote_cmd_time_ = s.remote_cmd_time_ ∧
    vehicle_cmds (s.watchdog_timer now_time).2 = [] := by
  refine ⟨?_, ?_, TwistGate.watchdog_timer_vehicle_cmds now_time s⟩
  · rw [TwistGate.watchdog_timer_eq]
  · rw [TwistGate.watchdog_timer_eq]
